import Mathlib

/-!
Shallow embedding of the touch-grass authentication backend.

The embedding models the auth flow controller (signup, login), the User
model (family-code generator, pre-save password hashing hook), and the
bearer-token middleware. JavaScript string methods are modelled as
list-level functions on the underlying character data; machine randomness
is modelled by passing byte streams explicitly; the storage backend is
modelled as an in-memory list of records queried in insertion order, which
matches the default natural order of the driver used by the code.
-/

namespace TouchGrass

/-! ## JavaScript string primitives -/

/-- Model of the JS method toLowerCase, applied per character. -/
def jsToLowerCase (s : String) : String := String.mk (s.data.map Char.toLower)

/-- Model of the JS method toUpperCase, applied per character. -/
def jsToUpperCase (s : String) : String := String.mk (s.data.map Char.toUpper)

/-- Model of the JS method trim: strip whitespace from both ends. -/
def jsTrim (s : String) : String :=
  String.mk (((s.data.dropWhile Char.isWhitespace).reverse.dropWhile Char.isWhitespace).reverse)

/-- Model of the JS method startsWith. -/
def jsStartsWith (s p : String) : Bool := s.data.take p.data.length == p.data

/-- Model of the JS method substring with a single index argument. -/
def jsSubstringFrom (s : String) (n : Nat) : String := String.mk (s.data.drop n)

/-! ## Family-code generation (User.generateFamilyCode)

The source computes randomBytes(3).toString of base hex, then uppercases:
three random bytes rendered as six hexadecimal characters. -/

/-- One hexadecimal digit in the lowercase alphabet used by toString. -/
def hexDigit (n : Nat) : Char := if n < 10 then Char.ofNat (48 + n) else Char.ofNat (87 + n)

/-- Hex rendering of one byte: high nibble then low nibble. -/
def byteHex (b : Fin 256) : List Char := [hexDigit (b.val / 16), hexDigit (b.val % 16)]

/-- Three random bytes, the argument of the generator. -/
abbrev Bytes3 := Fin 256 × Fin 256 × Fin 256

/-- Model of User.generateFamilyCode: hex-encode three random bytes and
uppercase the result. -/
def generateFamilyCode (b : Bytes3) : String :=
  jsToUpperCase (String.mk (byteHex b.1 ++ byteHex b.2.1 ++ byteHex b.2.2))

/-- Uppercase hex rendering of one byte, the image of byteHex under
the uppercase map. -/
def byteHexU (b : Fin 256) : List Char := (byteHex b).map Char.toUpper

/-- Uppercase alphanumeric character test (digits or capital letters). -/
def isUpperAlnum (c : Char) : Bool := (decide ('0' ≤ c) && decide (c ≤ '9')) || (decide ('A' ≤ c) && decide (c ≤ 'Z'))

/-! ## Roles, password digests, tokens -/

/-- The two account roles. -/
inductive Role where
  | parent
  | kid
deriving DecidableEq, Repr

/-- Stored password value: either still plaintext or a salted bcrypt
digest of an earlier stored value. An ideal injective digest is used:
the salt and the hashed input are recoverable in the model, standing in
for the bcrypt digest string. -/
inductive StoredPw where
  | plain (pw : String)
  | hashed (salt : Nat) (inner : StoredPw)
deriving DecidableEq, Repr

/-- Model of bcrypt.compare: a candidate plaintext matches exactly a
single-round digest of that plaintext. Comparing against a value that is
not a digest of a plaintext fails. -/
def bcryptCompare (candidate : String) : StoredPw → Bool
  | .hashed _ (.plain pw) => candidate == pw
  | _ => false

/-- Claims payload carried by a JWT: id, role, and expiry derived from
the configured TTL. -/
structure TokenClaims where
  id : Nat
  role : Role
  exp : Nat
deriving DecidableEq, Repr

/-- A signed token: claims plus the signature, modelled as the secret
that produced it (ideal unforgeable MAC). -/
structure Token where
  claims : TokenClaims
  sig : String
deriving DecidableEq, Repr

/-- Verification failures of jwt.verify: JsonWebTokenError (malformed or
bad signature) and TokenExpiredError. -/
inductive JwtError where
  | malformed
  | expired
deriving DecidableEq, Repr

/-- Model of jwt.sign with an expiresIn option: records the claims with
expiry now + ttl, signed by the secret. -/
def jwtSign (secret : String) (now ttl : Nat) (id : Nat) (role : Role) : Token :=
  ⟨⟨id, role, now + ttl⟩, secret⟩

/-- Model of jwt.verify: the signature is checked first (bad secret gives
JsonWebTokenError), then expiry (expired when exp is not in the future). -/
def jwtVerify (secret : String) (now : Nat) (t : Token) : Except JwtError TokenClaims :=
  if t.sig != secret then .error .malformed
  else if t.claims.exp ≤ now then .error .expired
  else .ok t.claims

/-! ## Stored records and the store -/

/-- A persisted User record, after the pre-save hook ran. -/
structure StoredUser where
  id : Nat
  email : String
  password : StoredPw
  role : Role
  familyCode : Option String
  parent : Option Nat
  name : Option String
  kids : List Nat
  createdAt : Nat
deriving DecidableEq, Repr

/-- A persisted Kid profile record. -/
structure StoredKid where
  id : Nat
  name : String
  age : Nat
  parent : Nat
  createdAt : Nat
deriving DecidableEq, Repr

/-- The storage backend: User and Kid collections in insertion order plus
an id source for new records. -/
structure Store where
  users : List StoredUser
  kidDocs : List StoredKid
  nextId : Nat
deriving DecidableEq, Repr

/-- Model of User.findOne on the email field: first match in natural
order. -/
def findUserByEmail (s : Store) (e : String) : Option StoredUser :=
  s.users.find? (fun u => u.email == e)

/-- Model of User.findOne on the familyCode field: first match in natural
order. -/
def findUserByCode (s : Store) (c : String) : Option StoredUser :=
  s.users.find? (fun u => u.familyCode == some c)

/-- Model of User.findById. -/
def findUserById (s : Store) (i : Nat) : Option StoredUser :=
  s.users.find? (fun u => u.id == i)

/-- A family code is used when some stored user holds it. -/
def codeUsed (s : Store) (c : String) : Bool := (findUserByCode s c).isSome

/-- Update applied to one user record by the findByIdAndUpdate call with
a push on the kids field: append when the id matches, else unchanged. -/
def pushIf (pid kidId : Nat) (u : StoredUser) : StoredUser :=
  if u.id == pid then { u with kids := u.kids ++ [kidId] } else u

/-- Model of the findByIdAndUpdate call with a push on the kids field. -/
def pushKidToParent (s : Store) (pid kidId : Nat) : Store :=
  { s with users := s.users.map (pushIf pid kidId) }

/-! ## The unique-code generation loop

The parent branch of signup loops: generate a random code, query for a
holder, stop when no holder exists. The stream of random byte triples is
passed explicitly; the loop is total exactly when some iteration of the
stream yields an unused code, and then returns the first such code. -/

/-- Termination condition of the generation loop: some iteration of the
random stream yields a code no stored user holds. -/
abbrev CodeAvail (rand : Nat → Bytes3) (s : Store) : Prop :=
  ∃ n, codeUsed s (generateFamilyCode (rand n)) = false

/-- Model of the while loop in the parent branch of signup: the code of
the first iteration whose generated code has no holder. -/
def genUniqueCode (rand : Nat → Bytes3) (s : Store) (h : CodeAvail rand s) : String :=
  generateFamilyCode (rand (Nat.find h))

/-! ## Environment and the auth flow controller -/

/-- Configuration read from the environment: the signing secret and token
TTL, plus the ambient clock and the salt the next bcrypt call draws. -/
structure Env where
  secret : String
  jwtTtl : Nat
  now : Nat
  salt : Nat

/-- Model of generateToken in the auth controller: jwt.sign of id and
role with the configured secret and expiry. -/
def generateToken (env : Env) (id : Nat) (role : Role) : Token :=
  jwtSign env.secret env.now env.jwtTtl id role

/-- The request body of signup; absent JSON fields are none. -/
structure SignupReq where
  email : Option String
  password : Option String
  role : Option String
  familyCode : Option String
  name : Option String
  age : Option Nat
deriving DecidableEq, Repr

/-- The role-shaped data object of a successful auth response. -/
structure RespData where
  id : Nat
  email : String
  role : Role
  createdAt : Nat
  familyCode : Option String := none
  name : Option String := none
  parentId : Option Nat := none
  kidId : Option Nat := none
  age : Option Nat := none
deriving DecidableEq, Repr

/-- A JSON response: HTTP status plus the success/message/token/data
envelope. -/
structure Resp where
  status : Nat
  success : Bool
  message : String
  token : Option Token := none
  data : Option RespData := none
deriving DecidableEq, Repr

/-- An error response: success false, no token, no data. -/
def mkErr (status : Nat) (message : String) : Resp :=
  { status := status, success := false, message := message }

/-- The response of a kid signup whose family code has no holder. -/
def invalidFamilyCodeResp : Resp :=
  mkErr 400 "Invalid family code. Please check with your parent."

/-- Writes of the kid branch of signup: create the kid-role User record
(password hashed by the pre-save hook), create the Kid profile record,
push the Kid id onto the parent record, and shape the kid response. -/
def kidSignupWrite (env : Env) (emailNorm password name : String) (age : Nat)
    (parentUser : StoredUser) (s : Store) : Resp × Store :=
  let newUser : StoredUser :=
    { id := s.nextId
      email := emailNorm
      password := .hashed env.salt (.plain password)
      role := .kid
      familyCode := parentUser.familyCode
      parent := some parentUser.id
      name := some name
      kids := []
      createdAt := env.now }
  let kidDoc : StoredKid :=
    { id := s.nextId + 1, name := name, age := age, parent := parentUser.id, createdAt := env.now }
  let s1 : Store := { users := s.users ++ [newUser], kidDocs := s.kidDocs ++ [kidDoc], nextId := s.nextId + 2 }
  let s2 := pushKidToParent s1 parentUser.id kidDoc.id
  ({ status := 201, success := true, message := "User created successfully"
     token := some (generateToken env newUser.id newUser.role)
     data := some { id := newUser.id, email := newUser.email, role := newUser.role
                    createdAt := newUser.createdAt, name := some name
                    parentId := some parentUser.id, kidId := some kidDoc.id, age := some age } }, s2)

/-- Writes of the parent branch of signup: create the parent User record
with the freshly generated family code and shape the parent response. -/
def parentSignupWrite (env : Env) (emailNorm password code : String) (s : Store) : Resp × Store :=
  let newUser : StoredUser :=
    { id := s.nextId
      email := emailNorm
      password := .hashed env.salt (.plain password)
      role := .parent
      familyCode := some code
      parent := none
      name := none
      kids := []
      createdAt := env.now }
  let s1 : Store := { s with users := s.users ++ [newUser], nextId := s.nextId + 1 }
  ({ status := 201, success := true, message := "User created successfully"
     token := some (generateToken env newUser.id newUser.role)
     data := some { id := newUser.id, email := newUser.email, role := newUser.role
                    createdAt := newUser.createdAt, familyCode := newUser.familyCode } }, s1)

/-- Model of the signup controller. Truthiness of the JS checks on
possibly absent string fields collapses absent and empty to the empty
string; a missing or zero age is falsy. The random byte stream and the
termination witness of the code-generation loop are passed explicitly. -/
def signup (env : Env) (rand : Nat → Bytes3) (req : SignupReq) (s : Store)
    (havail : CodeAvail rand s) : Resp × Store :=
  let email := req.email.getD ""
  let password := req.password.getD ""
  let role := req.role.getD ""
  let familyCode := req.familyCode.getD ""
  let name := req.name.getD ""
  let age := req.age.getD 0
  if email == "" || password == "" then
    (mkErr 400 "Please provide email and password", s)
  else if password.length < 6 then
    (mkErr 400 "Password must be at least 6 characters long", s)
  else if role != "" && !(role == "parent" || role == "kid") then
    (mkErr 400 "Role must be either \"parent\" or \"kid\"", s)
  else if role == "kid" && familyCode == "" then
    (mkErr 400 "Family code is required for kid signup", s)
  else if role == "kid" && name == "" then
    (mkErr 400 "Name is required for kid signup", s)
  else if role == "kid" && age == 0 then
    (mkErr 400 "Age is required for kid signup", s)
  else if (findUserByEmail s (jsTrim (jsToLowerCase email))).isSome then
    (mkErr 409 "User with this email already exists", s)
  else if role == "kid" then
    match findUserByCode s (jsToUpperCase familyCode) with
    | none => (invalidFamilyCodeResp, s)
    | some parentUser =>
        kidSignupWrite env (jsTrim (jsToLowerCase email)) password name age parentUser s
  else
    parentSignupWrite env (jsTrim (jsToLowerCase email)) password
      (genUniqueCode rand s havail) s

/-- Model of the login controller. -/
def login (env : Env) (emailField passwordField : Option String) (s : Store) : Resp :=
  let email := emailField.getD ""
  let password := passwordField.getD ""
  if email == "" || password == "" then
    mkErr 400 "Please provide email and password"
  else
    match findUserByEmail s (jsTrim (jsToLowerCase email)) with
    | none => mkErr 401 "Invalid email or password"
    | some user =>
        if !(bcryptCompare password user.password) then
          mkErr 401 "Invalid email or password"
        else
          { status := 200, success := true, message := "Login successful"
            token := some (generateToken env user.id user.role)
            data := some { id := user.id, email := user.email, role := user.role
                           createdAt := user.createdAt } }

/-! ## The pre-save password hook of the User schema -/

/-- The slice of a mongoose document the pre-save hook touches: the
password path and its modified flag. A freshly created document has the
flag set. -/
structure UserDoc where
  password : StoredPw
  passwordModified : Bool
deriving DecidableEq, Repr

/-- Model of the pre-save hook: hash the password only when the path was
modified since the document was last persisted. -/
def preSaveHook (salt : Nat) (d : UserDoc) : UserDoc :=
  if d.passwordModified then { d with password := .hashed salt d.password } else d

/-- Model of document save: run the pre-save hook, then persist, which
clears the modified flag. -/
def saveUserDoc (salt : Nat) (d : UserDoc) : UserDoc :=
  { preSaveHook salt d with passwordModified := false }

/-- A freshly constructed document: every path counts as modified. -/
def newUserDoc (pw : String) : UserDoc :=
  { password := .plain pw, passwordModified := true }

/-! ## The auth middleware (Access Guard) -/

/-- Outcome of the middleware: either an early JSON rejection or a pass
to the next handler with the loaded user attached to the request. -/
inductive GuardOutcome where
  | reject (status : Nat) (message : String)
  | proceed (user : StoredUser)
deriving DecidableEq, Repr

/-- Model of the auth middleware: read the Authorization header, check
the Bearer shape, extract the token text, parse it (a parse failure is a
JsonWebTokenError), verify signature and expiry, then load the user. The
token-text decoder is passed explicitly. -/
def authGuard (parseToken : String → Option Token) (secret : String) (now : Nat)
    (s : Store) (authHeader : Option String) : GuardOutcome :=
  match authHeader with
  | none => .reject 401 "No authorization token provided"
  | some h =>
    if !(jsStartsWith h "Bearer ") then
      .reject 401 "Invalid token format. Use: Bearer <token>"
    else
      let token := jsSubstringFrom h 7
      if token == "" then
        .reject 401 "No token found"
      else
        match parseToken token with
        | none => .reject 401 "Invalid token"
        | some t =>
          match jwtVerify secret now t with
          | .error .malformed => .reject 401 "Invalid token"
          | .error .expired => .reject 401 "Token has expired"
          | .ok claims =>
            match findUserById s claims.id with
            | none => .reject 401 "User not found"
            | some user => .proceed user

/-! ## Concrete fixtures used by witnesses -/

/-- A stored parent account holding family code ABC123. -/
def demoParent : StoredUser :=
  { id := 1, email := "a@x.com", password := .hashed 7 (.plain "secret1")
    role := .parent, familyCode := some "ABC123", parent := none, name := none
    kids := [], createdAt := 0 }

/-- A store holding exactly the demo parent. -/
def demoStore : Store := { users := [demoParent], kidDocs := [], nextId := 2 }

/-- The empty store. -/
def emptyStore : Store := { users := [], kidDocs := [], nextId := 0 }

/-- A constant random stream producing the zero byte triple. -/
def randZero : Nat → Bytes3 := fun _ => (0, 0, 0)

/-- The zero stream immediately yields a code unused in the demo store. -/
def demoAvail : CodeAvail randZero demoStore := ⟨0, by decide⟩

/-- The zero stream immediately yields a code unused in the empty store. -/
def emptyAvail : CodeAvail randZero emptyStore := ⟨0, by decide⟩

/-- First invariant of reachable stores: the first stored user holding
any family code, in natural order, is a parent — resolveByCode therefore
resolves codes to parent accounts. -/
def CodeInv (s : Store) : Prop :=
  ∀ c u, findUserByCode s c = some u → u.role = Role.parent

/-- Environment fixture used by witnesses. -/
def env0 : Env := { secret := "s1", jwtTtl := 60, now := 0, salt := 7 }

/-- A kid signup request quoting the demo parent code in lowercase. -/
def reqKid : SignupReq :=
  { email := some "kid@x.com", password := some "secret1", role := some "kid"
    familyCode := some "abc123", name := some "Al", age := some 10 }

/-- A store fixture for the retry-unbounded construction: one parent
holding the code the zero byte triple generates. -/
def retryUser : StoredUser :=
  { id := 0, email := "p@x.com", password := .hashed 7 (.plain "secret1")
    role := .parent, familyCode := some (generateFamilyCode (0, 0, 0))
    parent := none, name := none, kids := [], createdAt := 0 }

/-- The store holding exactly the retry fixture user. -/
def retryStore : Store := { users := [retryUser], kidDocs := [], nextId := 1 }

/-- A random stream that repeats the used zero triple for the first k + 1
iterations and then produces a fresh triple. -/
def retryRand (k : Nat) : Nat → Bytes3 := fun n => if n ≤ k then (0, 0, 0) else (1, 0, 0)

/-- Disjunctive characterization of one signup call: an error reply with
the store unchanged, the kid write path against the resolved code holder,
or the parent write path with the freshly generated code. -/
abbrev SignupOutcome (env : Env) (rand : Nat → Bytes3) (req : SignupReq) (s : Store)
    (hva : CodeAvail rand s) (out : Resp × Store) : Prop :=
  (∃ st msg, out = (mkErr st msg, s) ∧ st ≠ 201) ∨
  (∃ pu, findUserByCode s (jsToUpperCase (req.familyCode.getD "")) = some pu ∧
    out = kidSignupWrite env (jsTrim (jsToLowerCase (req.email.getD ""))) (req.password.getD "")
      (req.name.getD "") (req.age.getD 0) pu s) ∨
  out = parentSignupWrite env (jsTrim (jsToLowerCase (req.email.getD ""))) (req.password.getD "")
    (genUniqueCode rand s hva) s

/-! # Theorems -/

/-! ## Helper lemmas -/

theorem hexDigitU_inj : ∀ x y : Fin 16,
    Char.toUpper (hexDigit x.val) = Char.toUpper (hexDigit y.val) → x = y := by decide

theorem byteHexU_inj (x y : Fin 256)
    (h1 : Char.toUpper (hexDigit (x.val / 16)) = Char.toUpper (hexDigit (y.val / 16)))
    (h2 : Char.toUpper (hexDigit (x.val % 16)) = Char.toUpper (hexDigit (y.val % 16))) :
    x = y := by
  have hx1 : x.val / 16 < 16 := by omega
  have hy1 : y.val / 16 < 16 := by omega
  have hx2 : x.val % 16 < 16 := by omega
  have hy2 : y.val % 16 < 16 := by omega
  have e1 := hexDigitU_inj ⟨x.val / 16, hx1⟩ ⟨y.val / 16, hy1⟩ h1
  have e2 := hexDigitU_inj ⟨x.val % 16, hx2⟩ ⟨y.val % 16, hy2⟩ h2
  have v1 : x.val / 16 = y.val / 16 := congrArg Fin.val e1
  have v2 : x.val % 16 = y.val % 16 := congrArg Fin.val e2
  exact Fin.ext (by omega)

theorem generateFamilyCode_eq (b : Bytes3) :
    generateFamilyCode b = String.mk (byteHexU b.1 ++ byteHexU b.2.1 ++ byteHexU b.2.2) := by
  simp [generateFamilyCode, jsToUpperCase, byteHexU, List.map_append]

theorem generateFamilyCode_injective : Function.Injective generateFamilyCode := by
  rintro ⟨a1, a2, a3⟩ ⟨b1, b2, b3⟩ h
  rw [generateFamilyCode_eq, generateFamilyCode_eq] at h
  have hl : byteHexU a1 ++ byteHexU a2 ++ byteHexU a3
      = byteHexU b1 ++ byteHexU b2 ++ byteHexU b3 := congrArg String.data h
  simp only [byteHexU, byteHex, List.map, List.cons_append, List.nil_append,
    List.cons.injEq, and_true] at hl
  obtain ⟨e1, e2, e3, e4, e5, e6⟩ := hl
  have h1 : a1 = b1 := byteHexU_inj a1 b1 e1 e2
  have h2 : a2 = b2 := byteHexU_inj a2 b2 e3 e4
  have h3 : a3 = b3 := byteHexU_inj a3 b3 e5 e6
  subst h1; subst h2; subst h3; rfl

theorem isUpperAlnum_hexDigitU : ∀ x : Fin 16,
    isUpperAlnum (Char.toUpper (hexDigit x.val)) = true := by decide

/-! ## Claim theorems -/

/-- Claim C2, counterexample: the set of codes the generator can produce
does not have size 36 to the sixth power — the generator renders three
random bytes in hexadecimal, so at most 2 to the 24th distinct codes
exist, far below 36 to the sixth. -/
theorem familyCode_space_card_ne_36pow6 :
    (Finset.image generateFamilyCode Finset.univ).card ≠ 36 ^ 6 := by
  intro h
  have hle : (Finset.image generateFamilyCode (Finset.univ : Finset Bytes3)).card
      ≤ (Finset.univ : Finset Bytes3).card := Finset.card_image_le
  rw [Finset.card_univ, h] at hle
  have hc : Fintype.card Bytes3 = 16777216 := by
    rw [Fintype.card_prod, Fintype.card_prod, Fintype.card_fin]
  rw [hc] at hle
  norm_num at hle

/-- Claim C2, amended: every code the generator produces is a 6-character
uppercase alphanumeric string (in fact uppercase hexadecimal), and the
set of producible codes has size 16 to the sixth power, about 16.8
million, not 36 to the sixth. -/
theorem familyCode_hex_space :
    (∀ b : Bytes3, (generateFamilyCode b).length = 6 ∧
      ∀ c ∈ (generateFamilyCode b).data, isUpperAlnum c = true) ∧
    (Finset.image generateFamilyCode Finset.univ).card = 16 ^ 6 := by
  constructor
  · rintro ⟨b1, b2, b3⟩
    rw [generateFamilyCode_eq]
    constructor
    · simp [String.length, byteHexU, byteHex]
    · intro c hc
      simp only [byteHexU, byteHex, List.map, List.cons_append, List.nil_append,
        List.mem_cons, List.not_mem_nil, or_false] at hc
      rcases hc with h | h | h | h | h | h <;> subst h
      · exact isUpperAlnum_hexDigitU ⟨b1.val / 16, by omega⟩
      · exact isUpperAlnum_hexDigitU ⟨b1.val % 16, by omega⟩
      · exact isUpperAlnum_hexDigitU ⟨b2.val / 16, by omega⟩
      · exact isUpperAlnum_hexDigitU ⟨b2.val % 16, by omega⟩
      · exact isUpperAlnum_hexDigitU ⟨b3.val / 16, by omega⟩
      · exact isUpperAlnum_hexDigitU ⟨b3.val % 16, by omega⟩
  · rw [Finset.card_image_of_injective _ generateFamilyCode_injective, Finset.card_univ]
    have hc : Fintype.card Bytes3 = 16777216 := by
      rw [Fintype.card_prod, Fintype.card_prod, Fintype.card_fin]
    rw [hc]; norm_num

/-- Claim C9: a persisted User record passes the password through the
salted hash exactly when the password path was modified since the last
persist, or the record is new; saving with the password unmodified leaves
the stored digest unchanged. -/
theorem password_hash_iff_modified (salt : Nat) (d : UserDoc) (pw : String) :
    (d.passwordModified = false → (saveUserDoc salt d).password = d.password) ∧
    (d.passwordModified = true → (saveUserDoc salt d).password = StoredPw.hashed salt d.password) ∧
    (saveUserDoc salt (newUserDoc pw)).password = StoredPw.hashed salt (.plain pw) := by
  refine ⟨fun h => ?_, fun h => ?_, ?_⟩ <;>
    simp [saveUserDoc, preSaveHook, newUserDoc, *]

/-- Witness for C9 at a concrete document. -/
theorem password_hash_iff_modified_witness :
    (saveUserDoc 9 { password := .hashed 3 (.plain "secret1"), passwordModified := false }).password
        = StoredPw.hashed 3 (.plain "secret1") ∧
    (saveUserDoc 9 { password := .plain "secret1", passwordModified := true }).password
        = StoredPw.hashed 9 (.plain "secret1") :=
  ⟨(password_hash_iff_modified 9
      { password := .hashed 3 (.plain "secret1"), passwordModified := false } "w").1 rfl,
   (password_hash_iff_modified 9
      { password := .plain "secret1", passwordModified := true } "w").2.1 rfl⟩

/-- Claim C10: a request whose Authorization header is exactly the Bearer
marker with nothing after it is rejected 401 No token found, for every
token decoder, secret, clock and store — so before any verification or
identity load. -/
theorem guard_empty_bearer_token (parseToken : String → Option Token) (secret : String)
    (now : Nat) (s : Store) :
    authGuard parseToken secret now s (some "Bearer ") = .reject 401 "No token found" := by
  have h1 : jsStartsWith "Bearer " "Bearer " = true := by decide
  have h2 : jsSubstringFrom "Bearer " 7 = "" := by decide
  simp [authGuard, h1, h2]

/-- Claim C6: verification rejects a token with past expiry even with a
valid signature (and the guard answers 401 Token has expired), rejects a
token signed with a different secret regardless of its claimed expiry
(and the guard answers 401 Invalid token), and the two rejections are
distinct responses. -/
theorem token_verify_expiry_secret (secret : String) (now : Nat) (s : Store) (t : Token) :
    (t.sig = secret → t.claims.exp ≤ now →
      jwtVerify secret now t = .error .expired ∧
      authGuard (fun _ => some t) secret now s (some "Bearer x")
        = .reject 401 "Token has expired") ∧
    (t.sig ≠ secret →
      jwtVerify secret now t = .error .malformed ∧
      authGuard (fun _ => some t) secret now s (some "Bearer x")
        = .reject 401 "Invalid token") ∧
    GuardOutcome.reject 401 "Token has expired" ≠ GuardOutcome.reject 401 "Invalid token" := by
  have h1 : jsStartsWith "Bearer x" "Bearer " = true := by decide
  have h2 : jsSubstringFrom "Bearer x" 7 = "x" := by decide
  have h3 : (("x" : String) == "") = false := by decide
  refine ⟨fun hs he => ?_, fun hs => ?_, by decide⟩
  · have hv : jwtVerify secret now t = .error .expired := by
      simp [jwtVerify, hs, he]
    exact ⟨hv, by simp [authGuard, h1, h2, h3, hv]⟩
  · have hv : jwtVerify secret now t = .error .malformed := by
      simp [jwtVerify, hs]
    exact ⟨hv, by simp [authGuard, h1, h2, h3, hv]⟩

/-- Witness for C6: an expired token with a valid signature, and a token
signed by a different secret, at concrete values. -/
theorem token_verify_expiry_secret_witness :
    jwtVerify "s1" 10 ⟨⟨1, .parent, 5⟩, "s1"⟩ = .error .expired ∧
    authGuard (fun _ => some ⟨⟨1, .parent, 5⟩, "s1"⟩) "s1" 10 emptyStore (some "Bearer x")
      = .reject 401 "Token has expired" ∧
    jwtVerify "s1" 10 ⟨⟨1, .parent, 99⟩, "evil"⟩ = .error .malformed ∧
    authGuard (fun _ => some ⟨⟨1, .parent, 99⟩, "evil"⟩) "s1" 10 emptyStore (some "Bearer x")
      = .reject 401 "Invalid token" := by
  have hA := (token_verify_expiry_secret "s1" 10 emptyStore ⟨⟨1, .parent, 5⟩, "s1"⟩).1
    rfl (by decide)
  have hB := (token_verify_expiry_secret "s1" 10 emptyStore ⟨⟨1, .parent, 99⟩, "evil"⟩).2.1
    (by decide)
  exact ⟨hA.1, hA.2, hB.1, hB.2⟩

/-- Claim C7: whether the normalized email matches no stored user or the
stored digest does not verify against the supplied password, login
answers the one fixed response 401 Invalid email or password, so the two
causes are indistinguishable from the response. -/
theorem login_uniform_error (env : Env) (emailField passwordField : Option String) (s : Store)
    (he : emailField.getD "" ≠ "") (hp : passwordField.getD "" ≠ "")
    (hfail : ∀ u, findUserByEmail s (jsTrim (jsToLowerCase (emailField.getD ""))) = some u →
      bcryptCompare (passwordField.getD "") u.password = false) :
    login env emailField passwordField s = mkErr 401 "Invalid email or password" := by
  have hcond : ((emailField.getD "" == "") || (passwordField.getD "" == "")) = false := by
    simp [he, hp]
  cases hfind : findUserByEmail s (jsTrim (jsToLowerCase (emailField.getD ""))) with
  | none => simp [login, hcond, hfind]
  | some u => simp [login, hcond, hfind, hfail u hfind]

/-- Witness for C7: wrong password against the stored demo digest. -/
theorem login_uniform_error_witness :
    login env0 (some "a@x.com") (some "wrongpw") demoStore
      = mkErr 401 "Invalid email or password" := by
  apply login_uniform_error
  · decide
  · decide
  · intro u h
    have hfind : findUserByEmail demoStore (jsTrim (jsToLowerCase ((some "a@x.com").getD "")))
        = some demoParent := by decide
    rw [hfind] at h
    injection h with h
    subst h
    decide

/-- Claim C8: the unique-code loop, under the precondition that some
iteration of the random stream yields an unused code, terminates with a
code held by no stored user; every earlier iteration had hit a collision
(the loop only stops on success), and no retry cap exists: for every
bound there are a stream and a store making the loop run past it. -/
theorem genUniqueCode_terminates_fresh (rand : Nat → Bytes3) (s : Store)
    (h : CodeAvail rand s) :
    codeUsed s (genUniqueCode rand s h) = false ∧
    (∀ m, m < Nat.find h → codeUsed s (generateFamilyCode (rand m)) = true) ∧
    (∀ (rand2 : Nat → Bytes3) (s2 : Store), Function.Surjective rand2 →
      (∃ b, codeUsed s2 (generateFamilyCode b) = false) → CodeAvail rand2 s2) ∧
    (∀ k : Nat, ∃ (rand2 : Nat → Bytes3) (s2 : Store) (h2 : CodeAvail rand2 s2),
      k < Nat.find h2) := by
  refine ⟨Nat.find_spec h, fun m hm => ?_, ?_, fun k => ?_⟩
  case refine_2 =>
    rintro rand2 s2 hsurj ⟨b, hb⟩
    obtain ⟨n, hn⟩ := hsurj b
    exact ⟨n, by rw [hn]; exact hb⟩
  · have hmin := Nat.find_min h hm
    cases hb : codeUsed s (generateFamilyCode (rand m)) with
    | false => exact absurd hb hmin
    | true => rfl
  · have havail : CodeAvail (retryRand k) retryStore := by
      refine ⟨k + 1, ?_⟩
      have hr : retryRand k (k + 1) = (1, 0, 0) := by simp [retryRand]
      rw [hr]; decide
    refine ⟨retryRand k, retryStore, havail, ?_⟩
    rw [Nat.lt_find_iff]
    intro m hm
    have hr : retryRand k m = (0, 0, 0) := by simp [retryRand, hm]
    rw [hr]; decide

/-- Witness for C8: the zero stream on the empty store stops at once with
an unused code. -/
theorem genUniqueCode_terminates_fresh_witness :
    codeUsed emptyStore (genUniqueCode randZero emptyStore emptyAvail) = false :=
  (genUniqueCode_terminates_fresh randZero emptyStore emptyAvail).1

/-! ## Signup helper lemmas -/

theorem pushIf_id (pid kidId : Nat) (u : StoredUser) : (pushIf pid kidId u).id = u.id := by
  unfold pushIf; split <;> rfl

theorem pushIf_role (pid kidId : Nat) (u : StoredUser) :
    (pushIf pid kidId u).role = u.role := by
  unfold pushIf; split <;> rfl

theorem jwtVerify_sign_roundtrip (secret : String) (now ttl id : Nat) (role : Role)
    (now2 : Nat) (h : now2 < now + ttl) :
    jwtVerify secret now2 (jwtSign secret now ttl id role) = .ok ⟨id, role, now + ttl⟩ := by
  have hn : ¬ (now + ttl ≤ now2) := by omega
  simp [jwtVerify, jwtSign, hn]

theorem demoStore_codeInv : CodeInv demoStore := by
  intro c u h
  simp only [findUserByCode, demoStore, List.find?] at h
  split at h
  · injection h with h
    subst h
    rfl
  · simp at h

/-- Branch analysis of signup: either some validation or lookup fails and
the response is an error with the store unchanged, or the kid write path
runs against the resolved code holder, or the parent write path runs with
the freshly generated code. -/
theorem signup_cases (env : Env) (rand : Nat → Bytes3) (req : SignupReq) (s : Store)
    (hva : CodeAvail rand s) :
    SignupOutcome env rand req s hva (signup env rand req s hva) := by
  simp only [signup]
  split
  · exact Or.inl ⟨400, "Please provide email and password", rfl, by omega⟩
  split
  · exact Or.inl ⟨400, "Password must be at least 6 characters long", rfl, by omega⟩
  split
  · exact Or.inl ⟨400, "Role must be either \"parent\" or \"kid\"", rfl, by omega⟩
  split
  · exact Or.inl ⟨400, "Family code is required for kid signup", rfl, by omega⟩
  split
  · exact Or.inl ⟨400, "Name is required for kid signup", rfl, by omega⟩
  split
  · exact Or.inl ⟨400, "Age is required for kid signup", rfl, by omega⟩
  split
  · exact Or.inl ⟨409, "User with this email already exists", rfl, by omega⟩
  split
  · split
    next heq =>
      exact Or.inl ⟨400, "Invalid family code. Please check with your parent.", rfl, by omega⟩
    next pu heq =>
      exact Or.inr (Or.inl ⟨pu, heq, rfl⟩)
  · exact Or.inr (Or.inr rfl)

/-- Claim C3: signup validation is applied first-failure-wins in order:
missing email or password, short password, bad role, missing kid fields
(familyCode, then name, then age), then the duplicate-email check on the
lowercased trimmed email, a 409 conflict; in particular an uppercase
variant of a stored email conflicts. -/
theorem signup_validation_order (env : Env) (rand : Nat → Bytes3) (req : SignupReq)
    (s : Store) (hva : CodeAvail rand s) :
    ((req.email.getD "" = "" ∨ req.password.getD "" = "") →
      signup env rand req s hva = (mkErr 400 "Please provide email and password", s)) ∧
    (req.email.getD "" ≠ "" → req.password.getD "" ≠ "" →
      (req.password.getD "").length < 6 →
      signup env rand req s hva = (mkErr 400 "Password must be at least 6 characters long", s)) ∧
    (req.email.getD "" ≠ "" → req.password.getD "" ≠ "" →
      ¬ (req.password.getD "").length < 6 →
      req.role.getD "" ≠ "" → req.role.getD "" ≠ "parent" → req.role.getD "" ≠ "kid" →
      signup env rand req s hva = (mkErr 400 "Role must be either \"parent\" or \"kid\"", s)) ∧
    (req.email.getD "" ≠ "" → req.password.getD "" ≠ "" →
      ¬ (req.password.getD "").length < 6 →
      req.role.getD "" = "kid" → req.familyCode.getD "" = "" →
      signup env rand req s hva = (mkErr 400 "Family code is required for kid signup", s)) ∧
    (req.email.getD "" ≠ "" → req.password.getD "" ≠ "" →
      ¬ (req.password.getD "").length < 6 →
      req.role.getD "" = "kid" → req.familyCode.getD "" ≠ "" → req.name.getD "" = "" →
      signup env rand req s hva = (mkErr 400 "Name is required for kid signup", s)) ∧
    (req.email.getD "" ≠ "" → req.password.getD "" ≠ "" →
      ¬ (req.password.getD "").length < 6 →
      req.role.getD "" = "kid" → req.familyCode.getD "" ≠ "" → req.name.getD "" ≠ "" →
      req.age.getD 0 = 0 →
      signup env rand req s hva = (mkErr 400 "Age is required for kid signup", s)) ∧
    (req.email.getD "" ≠ "" → req.password.getD "" ≠ "" →
      ¬ (req.password.getD "").length < 6 →
      (req.role.getD "" = "" ∨ req.role.getD "" = "parent" ∨ req.role.getD "" = "kid") →
      (req.role.getD "" = "kid" →
        req.familyCode.getD "" ≠ "" ∧ req.name.getD "" ≠ "" ∧ req.age.getD 0 ≠ 0) →
      (findUserByEmail s (jsTrim (jsToLowerCase (req.email.getD "")))).isSome = true →
      signup env rand req s hva = (mkErr 409 "User with this email already exists", s)) ∧
    signup env0 randZero
      { email := some "A@x.com", password := some "secret1", role := none
        familyCode := none, name := none, age := none } demoStore demoAvail
      = (mkErr 409 "User with this email already exists", demoStore) := by
  refine ⟨?_, ?_, ?_, ?_, ?_, ?_, ?_, ?_⟩
  · rintro (h | h) <;> simp [signup, h]
  · intro he hp hlen
    simp [signup, he, hp, hlen]
  · intro he hp hlen hr1 hr2 hr3
    simp [signup, he, hp, hlen, hr1, hr2, hr3]
  · intro he hp hlen hk hfc
    simp [signup, he, hp, hlen, hk, hfc]
  · intro he hp hlen hk hfc hn
    simp [signup, he, hp, hlen, hk, hfc, hn]
  · intro he hp hlen hk hfc hn ha
    simp [signup, he, hp, hlen, hk, hfc, hn, ha]
  · intro he hp hlen hrole hkid hdup
    rcases hrole with h | h | h
    · simp [signup, he, hp, hlen, h, hdup]
    · simp [signup, he, hp, hlen, h, hdup]
    · obtain ⟨hfc, hn, ha⟩ := hkid h
      simp [signup, he, hp, hlen, h, hfc, hn, ha, hdup]
  · decide

/-- Witness for C3: an empty request fails with the first check. -/
theorem signup_validation_order_witness :
    signup env0 randZero
      { email := none, password := none, role := none
        familyCode := none, name := none, age := none } demoStore demoAvail
      = (mkErr 400 "Please provide email and password", demoStore) :=
  (signup_validation_order env0 randZero
    { email := none, password := none, role := none
      familyCode := none, name := none, age := none } demoStore demoAvail).1 (Or.inl rfl)

/-- Claim C4: a kid signup whose uppercased family code matches no stored
user fails with the InvalidFamilyCode error and leaves the store exactly
unchanged: no User record and no Kid record is created. -/
theorem signup_invalid_code_atomic (env : Env) (rand : Nat → Bytes3) (req : SignupReq)
    (s : Store) (hva : CodeAvail rand s)
    (he : req.email.getD "" ≠ "") (hp : req.password.getD "" ≠ "")
    (hlen : ¬ (req.password.getD "").length < 6)
    (hk : req.role.getD "" = "kid")
    (hfc : req.familyCode.getD "" ≠ "") (hn : req.name.getD "" ≠ "")
    (ha : req.age.getD 0 ≠ 0)
    (hdup : findUserByEmail s (jsTrim (jsToLowerCase (req.email.getD ""))) = none)
    (hnone : findUserByCode s (jsToUpperCase (req.familyCode.getD "")) = none) :
    signup env rand req s hva = (invalidFamilyCodeResp, s) := by
  simp [signup, he, hp, hlen, hk, hfc, hn, ha, hdup, hnone, invalidFamilyCodeResp]

/-- Witness for C4: a kid signup against the demo store quoting an
unknown code. -/
theorem signup_invalid_code_atomic_witness :
    signup env0 randZero
      { email := some "kid@x.com", password := some "secret1", role := some "kid"
        familyCode := some "zzzzzz", name := some "Al", age := some 10 }
      demoStore demoAvail = (invalidFamilyCodeResp, demoStore) := by
  apply signup_invalid_code_atomic <;> decide

/-- Claim C1: under the reachable-store invariant that the first holder
of any family code is a parent, the identity a kid signup resolves from
the uppercased supplied code is a parent User, and the signup answers
the InvalidFamilyCode 400 response exactly when no parent holds that
uppercased code. -/
theorem signup_kid_code_resolves_parent (env : Env) (rand : Nat → Bytes3) (req : SignupReq)
    (s : Store) (hva : CodeAvail rand s) (hinv : CodeInv s)
    (he : req.email.getD "" ≠ "") (hp : req.password.getD "" ≠ "")
    (hlen : ¬ (req.password.getD "").length < 6)
    (hk : req.role.getD "" = "kid")
    (hfc : req.familyCode.getD "" ≠ "") (hn : req.name.getD "" ≠ "")
    (ha : req.age.getD 0 ≠ 0)
    (hdup : findUserByEmail s (jsTrim (jsToLowerCase (req.email.getD ""))) = none) :
    (∀ u, findUserByCode s (jsToUpperCase (req.familyCode.getD "")) = some u →
      u.role = Role.parent) ∧
    ((signup env rand req s hva).1 = invalidFamilyCodeResp ↔
      ¬ ∃ u ∈ s.users, u.role = Role.parent ∧
          u.familyCode = some (jsToUpperCase (req.familyCode.getD ""))) := by
  refine ⟨fun u hu => hinv _ u hu, ?_⟩
  cases hfind : findUserByCode s (jsToUpperCase (req.familyCode.getD "")) with
  | none =>
    have hresp : signup env rand req s hva = (invalidFamilyCodeResp, s) := by
      simp [signup, he, hp, hlen, hk, hfc, hn, ha, hdup, hfind, invalidFamilyCodeResp]
    rw [hresp]
    refine iff_of_true rfl ?_
    rintro ⟨u, hu, hrole, hcode⟩
    have hn2 : ∀ x ∈ s.users, ¬ x.familyCode = some (jsToUpperCase (req.familyCode.getD "")) := by
      simpa [findUserByCode] using hfind
    exact hn2 u hu hcode
  | some pu =>
    have hresp : signup env rand req s hva =
        kidSignupWrite env (jsTrim (jsToLowerCase (req.email.getD ""))) (req.password.getD "")
          (req.name.getD "") (req.age.getD 0) pu s := by
      simp [signup, he, hp, hlen, hk, hfc, hn, ha, hdup, hfind]
    refine iff_of_false ?_ ?_
    · rw [hresp]
      intro heq
      have hst : (kidSignupWrite env (jsTrim (jsToLowerCase (req.email.getD "")))
          (req.password.getD "") (req.name.getD "") (req.age.getD 0) pu s).1.status
          = 201 := rfl
      rw [heq] at hst
      simp [invalidFamilyCodeResp, mkErr] at hst
    · intro hno
      apply hno
      have hfind2 : List.find? (fun u => u.familyCode == some
          (jsToUpperCase (req.familyCode.getD ""))) s.users = some pu := by
        simpa [findUserByCode] using hfind
      refine ⟨pu, List.mem_of_find?_eq_some hfind2, hinv _ pu hfind, ?_⟩
      have := List.find?_some hfind2
      simpa using this

/-- Witness for C1: resolving the demo parent code quoted in lowercase. -/
theorem signup_kid_code_resolves_parent_witness :
    ((signup env0 randZero reqKid demoStore demoAvail).1 = invalidFamilyCodeResp ↔
      ¬ ∃ u ∈ demoStore.users, u.role = Role.parent ∧
          u.familyCode = some (jsToUpperCase (reqKid.familyCode.getD ""))) :=
  (signup_kid_code_resolves_parent env0 randZero reqKid demoStore demoAvail
    demoStore_codeInv (by decide) (by decide) (by decide) (by decide) (by decide)
    (by decide) (by decide) (by decide)).2

/-- Claim C5: every successful signup returns a token that, verified with
the same secret before expiry, yields claims whose id and role are the
created user record's id and role (issue-then-verify round trip). -/
theorem signup_token_roundtrip (env : Env) (rand : Nat → Bytes3) (req : SignupReq)
    (s : Store) (hva : CodeAvail rand s) (now2 : Nat)
    (hok : (signup env rand req s hva).1.status = 201) :
    ∃ u d, u ∈ (signup env rand req s hva).2.users ∧
      (signup env rand req s hva).1.data = some d ∧
      d.id = u.id ∧ d.role = u.role ∧
      (signup env rand req s hva).1.token = some (generateToken env u.id u.role) ∧
      (now2 < env.now + env.jwtTtl →
        jwtVerify env.secret now2 (generateToken env u.id u.role)
          = .ok ⟨u.id, u.role, env.now + env.jwtTtl⟩) := by
  rcases signup_cases env rand req s hva with ⟨st, msg, heq, hne⟩ | ⟨pu, hfind, heq⟩ | heq
  · rw [heq] at hok
    exact absurd hok hne
  · rw [heq] at hok ⊢
    simp only [kidSignupWrite, pushKidToParent]
    refine ⟨_, _,
      List.mem_map_of_mem _ (List.mem_append_right _ (List.mem_singleton.mpr rfl)),
      rfl, ?_, ?_, ?_, ?_⟩
    · rw [pushIf_id]
    · rw [pushIf_role]
    · rw [pushIf_id, pushIf_role]
    · intro h2
      rw [pushIf_id, pushIf_role]
      exact jwtVerify_sign_roundtrip env.secret env.now env.jwtTtl _ _ now2 h2
  · rw [heq] at hok ⊢
    simp only [parentSignupWrite]
    exact ⟨_, _, List.mem_append_right _ (List.mem_singleton.mpr rfl),
      rfl, rfl, rfl, rfl, fun h2 =>
        jwtVerify_sign_roundtrip env.secret env.now env.jwtTtl _ _ now2 h2⟩

/-- Witness for C5: a concrete successful kid signup against the demo
store, verified 30 time units later, inside the 60-unit TTL. -/
theorem signup_token_roundtrip_witness :
    ∃ u d, u ∈ (signup env0 randZero reqKid demoStore demoAvail).2.users ∧
      (signup env0 randZero reqKid demoStore demoAvail).1.data = some d ∧
      d.id = u.id ∧ d.role = u.role ∧
      (signup env0 randZero reqKid demoStore demoAvail).1.token
        = some (generateToken env0 u.id u.role) ∧
      (30 < env0.now + env0.jwtTtl →
        jwtVerify env0.secret 30 (generateToken env0 u.id u.role)
          = .ok ⟨u.id, u.role, env0.now + env0.jwtTtl⟩) :=
  signup_token_roundtrip env0 randZero reqKid demoStore demoAvail 30 (by decide)

end TouchGrass
